import Mathlib

/-!
Verification development for the sys-logger structured-logging facade.

The embedding follows the JavaScript sources:
  - `src/logger/logger.js` (v0.8.4): namespace filter (`patternToRegExp`,
    `isNamespaceEnabled`), value sanitizer (`prepareValueForLogging`) and the
    per-level dispatch wrapper (`wrapLogMethod`).
  - `src/logger/config.js`: transport configuration resolver.  The repository
    carries two revisions of this module; this file embeds revision 0.8.0
    (the revision `test/logger/config.test.js` declares as its tested
    version), which contains `verifyLogDirectory` and the per-descriptor
    fault tolerance of `createPinoTransports`.

JavaScript strings are modelled as Lean `String` values viewed as character
sequences.  The JS string primitives used by the sources are re-implemented
below by structural recursion on `String.data` (so that all of them compute
by kernel reduction): `jsSplit` is `split(sep)`, `jsTrim` is `trim()`,
`jsSubstringTo s n` is `substring(0, n)`, `jsConcat` is `+`, `jsLength` is
`.length`, `jsStartsWith`/`jsEndsWith` are `startsWith`/`endsWith`.
`undefined`/missing values are `Option.none`; JS truthiness of a string is
"not empty".
-/

namespace SysLogger

/-! ## JS string primitives -/

/-- JS `s.split(sep)` accumulator: splits on every occurrence of `sep`. -/
def jsSplitAux (sep : Char) : List Char → List Char → List String
  | [], acc => [String.mk acc.reverse]
  | c :: cs, acc =>
    if c = sep then String.mk acc.reverse :: jsSplitAux sep cs []
    else jsSplitAux sep cs (c :: acc)

/-- JS `s.split(sep)` for a one-character separator (`""` splits to `[""]`). -/
def jsSplit (sep : Char) (s : String) : List String := jsSplitAux sep s.data []

/-- JS `s.trim()`: strip leading and trailing whitespace. -/
def jsTrim (s : String) : String :=
  String.mk (((s.data.dropWhile Char.isWhitespace).reverse.dropWhile Char.isWhitespace).reverse)

/-- Is the first character list an initial segment of the second? -/
def listLead : List Char → List Char → Bool
  | [], _ => true
  | _ :: _, [] => false
  | a :: as, b :: bs => a = b && listLead as bs

/-- JS `s.startsWith(p)`. -/
def jsStartsWith (s p : String) : Bool := listLead p.data s.data

/-- JS `s.endsWith(p)`. -/
def jsEndsWith (s p : String) : Bool := listLead p.data.reverse s.data.reverse

/-- JS `s.length` (number of characters). -/
def jsLength (s : String) : Nat := s.data.length

/-- JS `s.substring(0, n)`: the first `n` characters of `s`. -/
def jsSubstringTo (s : String) (n : Nat) : String := String.mk (s.data.take n)

/-- JS `s.substring(n)`: drop the first `n` characters of `s`. -/
def jsSubstringFrom (s : String) (n : Nat) : String := String.mk (s.data.drop n)

/-- JS `s.slice(0, -1)` via `String.dropRight 1`: drop the last character. -/
def jsDropLast (s : String) : String := String.mk s.data.dropLast

/-- JS string concatenation `a + b`. -/
def jsConcat (a b : String) : String := String.mk (a.data ++ b.data)

/-! ## Namespace filter (logger.js, `patternToRegExp` / `isNamespaceEnabled`) -/

/-- JS falsiness of the optional `namespace` argument (`!namespace`):
the namespace is absent (`undefined`) or the empty string. -/
def nsAbsent : Option String → Bool
  | none => true
  | some s => s = ""

/-- Models `patternToRegExp(pattern).test(ns)` from logger.js.  `'*'` compiles to
`^.*$` (matches everything); a pattern ending in an unescaped `*` of length
greater than one compiles to an anchored match on the part before the star
followed by an unbounded suffix, i.e. a prefix match; every other pattern
compiles to an anchored exact match with all regex metacharacters escaped,
i.e. literal string equality. -/
def patternMatches (pattern ns : String) : Bool :=
  if pattern = "*" then true
  else if jsEndsWith pattern "*" && !jsEndsWith pattern "\\*" && jsLength pattern > 1 then
    jsStartsWith ns (jsDropLast pattern)
  else ns = pattern

/-- Models `debug.trim().split(',').map(p => p.trim()).filter(Boolean)`:
the tokens of the DEBUG filter expression, empty tokens removed. -/
def parsePatterns (debug : String) : List String :=
  ((jsSplit ',' (jsTrim debug)).map jsTrim).filter (fun p => p ≠ "")

/-- The negated tokens, with the leading `-` stripped (`pattern.substring(1)`). -/
def skipsOf (patterns : List String) : List String :=
  (patterns.filter (fun p => jsStartsWith p "-")).map (fun p => jsSubstringFrom p 1)

/-- The positive (non-negated) tokens. -/
def namesOf (patterns : List String) : List String :=
  patterns.filter (fun p => !jsStartsWith p "-")

/-- The body of `isNamespaceEnabled` for a truthy namespace: every specific
(non-`*`) negative pattern is tested first and forces `false` on a match,
then a global `-*` forces `false`, then a matching specific positive pattern
or the global `*` enables. -/
def enabledForNamespace (ns : String) (skips names : List String) : Bool :=
  if (skips.filter (fun p => p ≠ "*")).any (fun p => patternMatches p ns) then false
  else if skips.contains "*" then false
  else if (names.filter (fun p => p ≠ "*")).any (fun p => patternMatches p ns) then true
  else names.contains "*"

/-- Evaluation of a parsed (token-list) filter against the namespace. -/
def evalPatterns (nsp : Option String) (patterns : List String) : Bool :=
  if patterns.isEmpty then nsAbsent nsp
  else
    let skips := skipsOf patterns
    let names := namesOf patterns
    match nsp with
    | none => names.contains "*" && !skips.contains "*"
    | some ns =>
      if ns = "" then names.contains "*" && !skips.contains "*"
      else enabledForNamespace ns skips names

/-- Models `isNamespaceEnabled(namespace)` from logger.js, with the `DEBUG`
environment value passed explicitly (`none` models an unset variable). -/
def isNamespaceEnabled (nsp : Option String) (debug : Option String) : Bool :=
  match debug with
  | none => nsAbsent nsp
  | some d =>
    if jsTrim d = "" then nsAbsent nsp
    else evalPatterns nsp (parsePatterns d)

/-! ## Value model and sanitizer (logger.js, `prepareValueForLogging`)

JavaScript runtime values are modelled by `JsValue`.  `map` is a `Map`
instance (the only depth-limited container; its keys appear after the
`String(k)` coercion, which is the identity on the string keys considered
here), `obj` is a plain object (prototype `Object.prototype`), `arr` an
array, `jsError` an `Error` instance, `exotic` any other object (`Date`,
class instance, ...), and the remaining constructors are the primitives. -/

/-- The observable fields of a JS `Error` instance: `constructor.name`,
`message`, `stack` and the optional `code` property. -/
structure JsError where
  name : String
  message : String
  stack : String
  code : Option String
deriving DecidableEq

inductive JsValue where
  | undef
  | null
  | bool (b : Bool)
  | num (n : Int)
  | str (s : String)
  | jsError (e : JsError)
  | arr (elems : List JsValue)
  | obj (fields : List (String × JsValue))
  | map (entries : List (String × JsValue))
  | exotic (tag : String)

/-- The sentinel produced when the `Map` depth budget is exhausted. -/
def maxMapDepthSentinel : String := "[Max Map Depth Reached]"

mutual

/-- Models `prepareValueForLogging(value, depth, maxStringLength, truncationMarker)`
from logger.js: truncate over-long strings, convert `Map`s to plain objects
decrementing `depth` (sentinel once `depth <= 0`), recurse through arrays
and plain objects without touching `depth`, and return everything else
(errors included) unchanged. -/
def prepareValueForLogging (v : JsValue) (depth : Int) (maxStringLength : Nat)
    (truncationMarker : String) : JsValue :=
  match v with
  | .str s =>
    if maxStringLength > 0 ∧ jsLength s > maxStringLength then
      .str (jsConcat (jsSubstringTo s maxStringLength) truncationMarker)
    else .str s
  | .map entries =>
    if depth ≤ 0 then .str maxMapDepthSentinel
    else .obj (prepareEntries entries (depth - 1) maxStringLength truncationMarker)
  | .arr elems => .arr (prepareElems elems depth maxStringLength truncationMarker)
  | .obj fields => .obj (prepareEntries fields depth maxStringLength truncationMarker)
  | v => v

/-- Element-wise recursion of `prepareValueForLogging` over an array
(`value.map(item => ...)`). -/
def prepareElems (l : List JsValue) (depth : Int) (maxStringLength : Nat)
    (truncationMarker : String) : List JsValue :=
  match l with
  | [] => []
  | v :: rest =>
    prepareValueForLogging v depth maxStringLength truncationMarker ::
      prepareElems rest depth maxStringLength truncationMarker

/-- Entry-wise recursion of `prepareValueForLogging` over the entries of a
`Map` or the fields of a plain object. -/
def prepareEntries (l : List (String × JsValue)) (depth : Int) (maxStringLength : Nat)
    (truncationMarker : String) : List (String × JsValue) :=
  match l with
  | [] => []
  | (k, v) :: rest =>
    (k, prepareValueForLogging v depth maxStringLength truncationMarker) ::
      prepareEntries rest depth maxStringLength truncationMarker

end

mutual

/-- A value that contains no `Map` container anywhere. -/
def mapFree : JsValue → Bool
  | .map _ => false
  | .arr elems => mapFreeElems elems
  | .obj fields => mapFreeEntries fields
  | _ => true

def mapFreeElems : List JsValue → Bool
  | [] => true
  | v :: rest => mapFree v && mapFreeElems rest

def mapFreeEntries : List (String × JsValue) → Bool
  | [] => true
  | (_, v) :: rest => mapFree v && mapFreeEntries rest

end

/-- A chain of `n` nested single-entry `Map`s around a base value. -/
def mapChain : Nat → JsValue → JsValue
  | 0, b => b
  | n + 1, b => .map [("k", mapChain n b)]

/-- A chain of `n` nested single-field plain objects around a base value. -/
def objChain : Nat → JsValue → JsValue
  | 0, b => b
  | n + 1, b => .obj [("k", objChain n b)]

/-- A chain of `n` nested one-element arrays around a base value. -/
def arrChain : Nat → JsValue → JsValue
  | 0, b => b
  | n + 1, b => .arr [arrChain n b]

/-! ## Log dispatch wrapper (logger.js, `wrapLogMethod`)

`wrapLogMethod` is modelled as the pure function from the call arguments
(and the resolved `LOG_MAX_DEPTH` / `LOG_MAX_STRING_LENGTH` /
`LOG_TRUNCATION_MARKER` settings) to the argument list passed to the
underlying pino method; `none` is the zero-argument no-op. -/

/-- JS `v instanceof Error`. -/
def isErrorValue : JsValue → Bool
  | .jsError _ => true
  | _ => false

/-- JS `typeof v === 'string'`. -/
def isStringValue : JsValue → Bool
  | .str _ => true
  | _ => false

/-- JS `typeof v === 'object' && v !== null && !(v instanceof Error)`. -/
def isNonErrorObject : JsValue → Bool
  | .arr _ => true
  | .obj _ => true
  | .map _ => true
  | .exotic _ => true
  | _ => false

/-- One step of the `args.map((arg, index) => ...)` conversion: a format
string with interpolation arguments is passed through, an `Error` is passed
through, any other object goes through `prepareValueForLogging`, and any
other string is truncated when over-long. -/
def convertOneArg (d : Int) (L : Nat) (mk : String) (keepFormatString : Bool)
    (arg : JsValue) : JsValue :=
  if keepFormatString then arg
  else
    match arg with
    | .jsError e => .jsError e
    | .arr l => prepareValueForLogging (.arr l) d L mk
    | .obj f => prepareValueForLogging (.obj f) d L mk
    | .map q => prepareValueForLogging (.map q) d L mk
    | .exotic t => prepareValueForLogging (.exotic t) d L mk
    | .str s =>
      if L > 0 ∧ jsLength s > L then .str (jsConcat (jsSubstringTo s L) mk)
      else .str s
    | a => a

/-- The `args.map((arg, index) => ...)` loop, carrying the running index. -/
def convertArgsFrom (d : Int) (L : Nat) (mk : String) (fsi : Nat) (hasInterp : Bool) :
    Nat → List JsValue → List JsValue
  | _, [] => []
  | i, a :: rest =>
    convertOneArg d L mk ((i == fsi) && isStringValue a && hasInterp) a ::
      convertArgsFrom d L mk fsi hasInterp (i + 1) rest

/-- JS property read `obj.k` on a plain object (keys are unique in a JS
object, so the first binding is the binding). -/
def lookupField (fields : List (String × JsValue)) (k : String) : Option JsValue :=
  (fields.find? (fun kv => kv.1 == k)).map (fun kv => kv.2)

/-- The own fields of a plain object; every other value has none. -/
def objFieldsOf : JsValue → List (String × JsValue)
  | .obj fs => fs
  | _ => []

/-- The normalized error record built for a context object's `err` field:
`{ message, stack, type: constructor name, code }` (`code` is `undefined`
when the error has none). -/
def normalizedErrorRecord (e : JsError) : JsValue :=
  .obj [("message", .str e.message), ("stack", .str e.stack), ("type", .str e.name),
    ("code", match e.code with | some c => .str c | none => .undef)]

/-- Models `wrapLogMethod(pinoInstance, method)` applied to `args`: the argument
list handed to `pinoInstance[method]`, or `none` for the zero-argument
no-op.  An `Error` first argument is passed through raw as `{ err: e }`; a
context object whose `err` field holds an `Error` has that field replaced by
the normalized record (spread after the remaining sanitized fields); other
shapes prepend `undefined` as pino's merging object. -/
def wrapLogMethod (d : Int) (L : Nat) (mk : String) (args : List JsValue) :
    Option (List JsValue) :=
  match args with
  | [] => none
  | firstArg :: _ =>
    if isErrorValue firstArg then some [.obj [("err", firstArg)]]
    else
      let fsi : Nat := if isNonErrorObject firstArg then 1 else 0
      let hasInterp : Bool := args.length > fsi + 1
      let convertedArgs := convertArgsFrom d L mk fsi hasInterp 0 args
      if isNonErrorObject firstArg then
        match lookupField (objFieldsOf firstArg) "err" with
        | some (.jsError e) =>
          let rest := (objFieldsOf (convertedArgs.headD .undef)).filter
            (fun kv => kv.1 ≠ "err")
          some (.obj (rest ++ [("err", normalizedErrorRecord e)]) :: convertedArgs.drop 1)
        | _ => some convertedArgs
      else some (.undef :: convertedArgs)

/-! ## Transport configuration resolver (config.js, revision 0.8.0) -/

/-- The process environment: a finite list of variable bindings. -/
abbrev Env := List (String × String)

/-- JS `env[k]` (`none` models `undefined`). -/
def envGet (env : Env) (k : String) : Option String :=
  (env.find? (fun p => p.1 == k)).map (fun p => p.2)

/-- JS truthiness of `env[k]`: defined and non-empty. -/
def envTruthy (env : Env) (k : String) : Bool :=
  match envGet env k with
  | some v => v ≠ ""
  | none => false

/-- JS `env[k] || dflt`. -/
def envOrDefault (env : Env) (k dflt : String) : String :=
  match envGet env k with
  | some v => if v = "" then dflt else v
  | none => dflt

/-- JS `env[k] !== 'false'`: the default-true boolean convention. -/
def envNotFalse (env : Env) (k : String) : Bool :=
  !(envGet env k == some "false")

/-- JS `env[k] === 'true'`: the default-false boolean convention. -/
def envIsTrue (env : Env) (k : String) : Bool :=
  envGet env k == some "true"

/-- JS `parseInt(s, 10) || dflt` (`NaN` and `0` both fall back to the
default; the claims never exercise `parseInt` prefix parsing, which is
modelled as whole-string parsing here). -/
def parseIntOrDefault (s : Option String) (dflt : Int) : Int :=
  match s with
  | none => dflt
  | some v =>
    match v.toInt? with
    | some i => if i = 0 then dflt else i
    | none => dflt

/-- JS `s.toLowerCase()`. -/
def jsToLower (s : String) : String := String.mk (s.data.map Char.toLower)

/-- The string-to-number level mapping `LOG_LEVELS[level?.toLowerCase()]
|| LOG_LEVELS.info` (`getLevelValue` in config.js). -/
def getLevelValue (level : String) : Nat :=
  match jsToLower level with
  | "trace" => 10
  | "debug" => 20
  | "info" => 30
  | "warn" => 40
  | "error" => 50
  | "fatal" => 60
  | _ => 30

/-- The `TRANSPORT{n}` environment key. -/
def transportKey (n : Nat) : String := jsConcat "TRANSPORT" (Nat.repr n)

/-- The `TRANSPORT{n}_{field}` environment key. -/
def transportField (n : Nat) (fld : String) : String :=
  jsConcat (jsConcat (transportKey n) "_") fld

/-- One parsed transport descriptor.  Kind-specific fields are populated
only for the matching `type` (their structure defaults stand for the JS
`undefined` of an absent property, which the resolver never reads for the
other kind). -/
structure TransportConfig where
  type : String
  level : String
  enabled : Bool
  sync : Bool
  colors : Bool := true
  translateTime : String := ""
  ignore : String := ""
  singleLine : Bool := false
  hideObjectKeys : String := ""
  showMetadata : Bool := false
  timestampKey : String := ""
  folder : String := ""
  filename : String := ""
  destination : String := ""
  mkdir : Bool := true
  append : Bool := true
  prettyPrint : Bool := false
  rotate : Bool := false
  rotateMaxSize : Int := 0
  rotateMaxFiles : Int := 0
  rotateCompress : Bool := false
deriving DecidableEq

/-- The body of the `while` loop of `parseTransportConfigs` for index `n`
(`env[TRANSPORT{n}]` is truthy at every call site, as in the source). -/
def parseTransportConfig (env : Env) (n : Nat) : TransportConfig :=
  let ty := jsToLower (envOrDefault env (transportKey n) "")
  let base : TransportConfig :=
    { type := ty
      level := envOrDefault env (transportField n "LEVEL") "info"
      enabled := envNotFalse env (transportField n "ENABLED")
      sync := envIsTrue env (transportField n "SYNC") }
  if ty = "console" then
    { base with
      colors := envNotFalse env (transportField n "COLORS")
      translateTime := envOrDefault env (transportField n "TRANSLATE_TIME") "SYS:standard"
      ignore := envOrDefault env (transportField n "IGNORE") "pid,hostname"
      singleLine := envIsTrue env (transportField n "SINGLE_LINE")
      hideObjectKeys := envOrDefault env (transportField n "HIDE_OBJECT_KEYS") ""
      showMetadata := envIsTrue env (transportField n "SHOW_METADATA")
      timestampKey := envOrDefault env (transportField n "TIMESTAMP_KEY") "time" }
  else if ty = "file" then
    { base with
      folder := envOrDefault env (transportField n "FOLDER") "logs"
      filename := envOrDefault env (transportField n "FILENAME") "{app_name}.log"
      destination := envOrDefault env (transportField n "DESTINATION") ""
      mkdir := envNotFalse env (transportField n "MKDIR")
      append := envNotFalse env (transportField n "APPEND")
      prettyPrint := envIsTrue env (transportField n "PRETTY_PRINT")
      rotate := envIsTrue env (transportField n "ROTATE")
      rotateMaxSize :=
        parseIntOrDefault (envGet env (transportField n "ROTATE_MAX_SIZE")) 10485760
      rotateMaxFiles :=
        parseIntOrDefault (envGet env (transportField n "ROTATE_MAX_FILES")) 5
      rotateCompress := envIsTrue env (transportField n "ROTATE_COMPRESS") }
  else base

/-- The `while (env[TRANSPORT{n}])` loop: collect descriptors from index
`n` upwards, stopping at the first undefined (or empty) index.  The fuel
only bounds the iteration count; a finite environment cannot define more
distinct `TRANSPORT{n}` keys than it has entries, so the fuel
`env.length + 1` used below never cuts the loop short. -/
def parseTransportConfigsAux (env : Env) : Nat → Nat → List TransportConfig
  | 0, _ => []
  | fuel + 1, n =>
    if envTruthy env (transportKey n) then
      parseTransportConfig env n :: parseTransportConfigsAux env fuel (n + 1)
    else []

/-- Models `parseTransportConfigs(env)` from config.js. -/
def parseTransportConfigs (env : Env) : List TransportConfig :=
  parseTransportConfigsAux env (env.length + 1) 1

/-- The filesystem checker (external collaborator): can the directory be
created if missing (`existsSync`/`mkdirSync`), and is it writable
(`accessSync(W_OK)`)? -/
structure FsOracle where
  creatable : String → Bool
  writable : String → Bool

/-- The process-level inputs of `processFilenameTemplate`: current date and
time, `package.json` application metadata, pid and hostname. -/
structure AppContext where
  dateStr : String
  timeStr : String
  appName : String
  appVersion : String
  pid : String
  hostname : String

/-- Left-to-right, non-overlapping global replacement
(`template.replace(/pat/g, repl)`), with fuel bounded by the text length. -/
def replaceAllAux (pat repl : List Char) : Nat → List Char → List Char
  | 0, l => l
  | _, [] => []
  | fuel + 1, c :: cs =>
    if listLead pat (c :: cs) then
      repl ++ replaceAllAux pat repl fuel ((c :: cs).drop pat.length)
    else c :: replaceAllAux pat repl fuel cs

/-- JS `s.replace(/pat/g, repl)` for a literal pattern. -/
def jsReplaceAll (s pat repl : String) : String :=
  String.mk (replaceAllAux pat.data repl.data s.data.length s.data)

/-- Models `processFilenameTemplate(template)` from config.js: substitute the
`{date}`, `{time}`, `{datetime}`, `{app_name}`, `{app_version}`, `{pid}`
and `{hostname}` placeholders; a falsy template yields `app.log`. -/
def processFilenameTemplate (ctx : AppContext) (template : String) : String :=
  if template = "" then "app.log"
  else
    jsReplaceAll (jsReplaceAll (jsReplaceAll (jsReplaceAll (jsReplaceAll (jsReplaceAll
      (jsReplaceAll template "{date}" ctx.dateStr) "{time}" ctx.timeStr)
      "{datetime}" (jsConcat (jsConcat ctx.dateStr "_") ctx.timeStr))
      "{app_name}" ctx.appName) "{app_version}" ctx.appVersion)
      "{pid}" ctx.pid) "{hostname}" ctx.hostname

/-- A diagnostic written to the process error stream (`console.error`). -/
inductive Diag where
  | dirAccessFailed (folder : String)
  | allTransportsFailed
deriving DecidableEq

/-- Models `verifyLogDirectory(logFolder)` from config.js v0.8.0: create the
directory if missing, check write access; on failure print a diagnostic and
return `false` instead of throwing. -/
def verifyLogDirectory (fs : FsOracle) (logFolder : String) : Bool × List Diag :=
  if fs.creatable logFolder && fs.writable logFolder then (true, [])
  else (false, [.dirAccessFailed logFolder])

/-- JS `path.join(a, b)` for simple relative segments. -/
def pathJoin (a b : String) : String := jsConcat (jsConcat a "/") b

/-- Join path segments back with `/`. -/
def joinWithSlash : List String → String
  | [] => ""
  | [x] => x
  | x :: rest => jsConcat (jsConcat x "/") (joinWithSlash rest)

/-- JS `path.dirname(p)` for simple POSIX paths. -/
def pathDirname (p : String) : String :=
  let parts := jsSplit '/' p
  if parts.length ≤ 1 then "." else joinWithSlash parts.dropLast

/-- JS regex test `/^\d+$/.test(s)`. -/
def isAllDigits (s : String) : Bool := s ≠ "" && s.data.all Char.isDigit

/-- JS `parseInt` on an all-digit string. -/
def digitsToNat : List Char → Nat → Nat
  | [], acc => acc
  | c :: cs, acc => digitsToNat cs (acc * 10 + (c.toNat - 48))

def jsParseIntDigits (s : String) : Nat := digitsToNat s.data 0

/-- A numeric stdio descriptor (`1` = stdout, `2` = stderr) or a file
path, as the `destination` option of a pino target. -/
inductive PinoDest where
  | fd (n : Nat)
  | path (p : String)
deriving DecidableEq

/-- The option object of one entry of `pino.transport({targets})`; absent
JS keys are `none`. -/
structure TargetOptions where
  colorize : Option Bool := none
  translateTime : Option String := none
  ignore : Option String := none
  singleLine : Option Bool := none
  timestampKey : Option String := none
  destination : Option PinoDest := none
  mkdir : Option Bool := none
  append : Option Bool := none
  sync : Option Bool := none
deriving DecidableEq

/-- One entry of `pino.transport({targets})`. -/
structure PinoTarget where
  level : String
  target : String
  options : TargetOptions
deriving DecidableEq

/-- The target built for a validated file descriptor: `pino-pretty` when
`prettyPrint` is set, raw `pino/file` otherwise. -/
def fileTargetFor (c : TransportConfig) (dest : PinoDest) : PinoTarget :=
  if c.prettyPrint then
    { level := c.level, target := "pino-pretty",
      options := { destination := some dest, colorize := some true,
                   translateTime := some "SYS:standard", ignore := some "pid,hostname",
                   sync := some c.sync } }
  else
    { level := c.level, target := "pino/file",
      options := { destination := some dest, mkdir := some c.mkdir,
                   append := some c.append, sync := some c.sync } }

/-- The body of the `enabledTransports.map(config => ...)` of
`createPinoTransports`: the target for one descriptor (`none` = the `null`
that the subsequent `.filter(Boolean)` drops), together with the
diagnostics emitted while resolving it. -/
def targetForConfig (fs : FsOracle) (ctx : AppContext) (c : TransportConfig) :
    Option PinoTarget × List Diag :=
  if c.type = "console" then
    (some { level := c.level, target := "pino-pretty",
            options := { colorize := some c.colors, translateTime := some c.translateTime,
                         ignore := some c.ignore, singleLine := some c.singleLine,
                         timestampKey := some c.timestampKey } }, [])
  else if c.type = "file" then
    if c.destination ≠ "" && isAllDigits c.destination then
      (some (fileTargetFor c (.fd (jsParseIntDigits c.destination))), [])
    else if c.destination ≠ "" then
      match verifyLogDirectory fs (pathDirname c.destination) with
      | (true, ds) => (some (fileTargetFor c (.path c.destination)), ds)
      | (false, ds) => (none, ds)
    else
      match verifyLogDirectory fs c.folder with
      | (true, ds) =>
        (some (fileTargetFor c
          (.path (pathJoin c.folder (processFilenameTemplate ctx c.filename)))), ds)
      | (false, ds) => (none, ds)
  else (none, [])

/-- The argument of `pino.transport(...)`: the target list and the
`dedupe` flag (absent in the fallback branch). -/
structure TransportTargetsSpec where
  targets : List PinoTarget
  dedupe : Option Bool := none
deriving DecidableEq

/-- A legacy-mode stream: `pino.destination({dest, sync, mkdir})` or a
`pino-pretty` stream. -/
inductive LegacySink where
  | fileDestination (dest : String) (sync : Bool) (mkdir : Bool)
  | prettyStream (colorize : Bool) (translateTime : String) (ignore : String) (sync : Bool)
deriving DecidableEq

structure LegacyStream where
  level : Nat
  stream : LegacySink
deriving DecidableEq

/-- The transport composition handed to pino: `pino.transport({targets})`
in multi-transport mode, `pino.multistream(streams)` in legacy mode. -/
inductive TransportComposition where
  | multiTargets (spec : TransportTargetsSpec)
  | multistream (streams : List LegacyStream)
deriving DecidableEq

/-- What `createTransport` returns: the overall numeric level and the
composed transport. -/
structure TransportResult where
  level : Nat
  transport : TransportComposition
deriving DecidableEq

/-- Error `LOG_TRANSPORT_INIT_FAILED`, optionally wrapping a
`LOG_DIR_CREATE_FAILED` cause for the named folder. -/
inductive LogError where
  | transportInitFailed (dirFailure : Option String)
deriving DecidableEq

/-- The default console target synthesized when every configured transport
failed to initialize. -/
def fallbackConsoleTarget : PinoTarget :=
  { level := "info", target := "pino-pretty",
    options := { colorize := some true, translateTime := some "SYS:standard" } }

/-- Models `Math.min(...targets.map(t => getLevelValue(t.level)))`; the source
only evaluates this on a non-empty list. -/
def minTargetLevel : List PinoTarget → Nat
  | [] => 30
  | t :: rest => rest.foldl (fun acc x => min acc (getLevelValue x.level)) (getLevelValue t.level)

/-- Models `createPinoTransports(transportConfigs)` from config.js v0.8.0: keep
the enabled descriptors, resolve each to a target (dropping, with a
diagnostic, file descriptors whose directory fails validation), and fall
back to a default console target (with a warning diagnostic) when no target
survives; otherwise the overall level is the minimum across targets. -/
def createPinoTransports (fs : FsOracle) (ctx : AppContext)
    (transportConfigs : List TransportConfig) : (TransportResult × List Diag) :=
  let enabledTransports := transportConfigs.filter (fun t => t.enabled)
  let results := enabledTransports.map (targetForConfig fs ctx)
  let targets := results.filterMap (fun r => r.1)
  let diags := (results.map (fun r => r.2)).flatten
  if targets.isEmpty then
    ({ level := 30,
       transport := .multiTargets { targets := [fallbackConsoleTarget] } },
     diags ++ [.allTransportsFailed])
  else
    ({ level := minTargetLevel targets,
       transport := .multiTargets { targets := targets, dedupe := some false } },
     diags)

/-- Models `loadConfig(env)` from config.js. -/
structure LoaderConfig where
  logLevel : String
  colorize : Bool
  fileOutput : Bool
  consoleOutput : Bool
  logFolder : String
  sync : Bool
  pretty : Bool
  transportConfigs : List TransportConfig

def loadConfig (env : Env) : LoaderConfig :=
  { logLevel := envOrDefault env "LOG_LEVEL" "info"
    colorize := envNotFalse env "LOG_COLORIZE"
    fileOutput := envNotFalse env "LOG_FILE_OUTPUT"
    consoleOutput := envNotFalse env "LOG_CONSOLE_OUTPUT"
    logFolder := envOrDefault env "LOG_FOLDER" "logs"
    sync := envIsTrue env "LOG_SYNC"
    pretty := envIsTrue env "LOG_PRETTY"
    transportConfigs := parseTransportConfigs env }

/-- Models `createTransport(env)` from config.js v0.8.0: multi-transport mode when
any `TRANSPORT{n}` is configured, legacy mode otherwise.  In legacy mode a
directory-creation failure of `ensureLogDirectory` throws, and the outer
`catch` re-wraps it as `LOG_TRANSPORT_INIT_FAILED` carrying the cause. -/
def createTransport (fs : FsOracle) (ctx : AppContext) (env : Env) :
    Except LogError (TransportResult × List Diag) :=
  let config := loadConfig env
  if config.transportConfigs.length > 0 then
    .ok (createPinoTransports fs ctx config.transportConfigs)
  else
    let numericLevel := getLevelValue config.logLevel
    if config.fileOutput && !(fs.creatable config.logFolder) then
      .error (.transportInitFailed (some config.logFolder))
    else
      let fileStreams : List LegacyStream :=
        if config.fileOutput then
          [{ level := numericLevel,
             stream := LegacySink.fileDestination
               (pathJoin config.logFolder (jsConcat ctx.appName ".log")) true true }]
        else []
      let consoleStreams : List LegacyStream :=
        if config.consoleOutput then
          [{ level := numericLevel,
             stream := LegacySink.prettyStream config.colorize "SYS:standard"
               "pid,hostname" true }]
        else []
      let streams := fileStreams ++ consoleStreams
      let streams2 :=
        if streams.isEmpty then
          [{ level := numericLevel,
             stream := LegacySink.prettyStream config.colorize "SYS:standard"
               "pid,hostname" true }]
        else streams
      .ok ({ level := numericLevel, transport := .multistream streams2 }, [])

/-- The target produced for a `TRANSPORT{n}=console` descriptor whose
console options are all left at their defaults, at level `lvl`. -/
def defaultConsoleTarget (lvl : String) : PinoTarget :=
  { level := lvl, target := "pino-pretty",
    options := { colorize := some true, translateTime := some "SYS:standard",
                 ignore := some "pid,hostname", singleLine := some false,
                 timestampKey := some "time" } }

/-- The target produced for a `TRANSPORT{n}=file` descriptor with default
file options, writing to `dest`, at level `lvl`. -/
def defaultFileTarget (lvl dest : String) : PinoTarget :=
  { level := lvl, target := "pino/file",
    options := { destination := some (.path dest), mkdir := some true,
                 append := some true, sync := some false } }

/-- The descriptor parsed from `TRANSPORT{n}=console` with only
`TRANSPORT{n}_LEVEL` possibly set. -/
def consoleCfgAtLevel (lvl : String) : TransportConfig :=
  { type := "console", level := lvl, enabled := true, sync := false,
    colors := true, translateTime := "SYS:standard", ignore := "pid,hostname",
    singleLine := false, hideObjectKeys := "", showMetadata := false,
    timestampKey := "time" }

/-- The descriptor parsed from `TRANSPORT{n}=file` with only
`TRANSPORT{n}_LEVEL` and `TRANSPORT{n}_FOLDER` possibly set. -/
def fileCfgAtLevelFolder (lvl folder : String) : TransportConfig :=
  { type := "file", level := lvl, enabled := true, sync := false,
    folder := folder, filename := "{app_name}.log", destination := "",
    mkdir := true, append := true, prettyPrint := false, rotate := false,
    rotateMaxSize := 10485760, rotateMaxFiles := 5, rotateCompress := false }

end SysLogger

section FilterTheorems

open SysLogger

/-- C4: with filter expression `api:*,auth,-api:internal`, namespace
`api:public` is enabled (prefix wildcard), `api:internal` is disabled
(specific negation), `auth` is enabled (exact match) and `other` is
disabled (no matching positive pattern). -/
theorem c4_filter_scenario :
    isNamespaceEnabled (some "api:public") (some "api:*,auth,-api:internal") = true ∧
    isNamespaceEnabled (some "api:internal") (some "api:*,auth,-api:internal") = false ∧
    isNamespaceEnabled (some "auth") (some "api:*,auth,-api:internal") = true ∧
    isNamespaceEnabled (some "other") (some "api:*,auth,-api:internal") = false := by
  decide

/-- C5: with a null/undefined or empty filter expression, a logger is enabled
exactly when its namespace is absent (the code's notion of "absent" is JS
falsiness: `undefined` or the empty string). -/
theorem c5_empty_filter_passes_only_unnamespaced (nsp : Option String)
    (e : Option String) (he : e = none ∨ e = some "") :
    isNamespaceEnabled nsp e = nsAbsent nsp := by
  rcases he with rfl | rfl
  · rfl
  · simp only [isNamespaceEnabled]
    rw [if_pos (by decide : jsTrim "" = "")]

/-- Witness for C5 at concrete inputs: an unnamespaced logger passes and a
namespaced logger is blocked under the empty filter expression. -/
theorem c5_empty_filter_witness :
    isNamespaceEnabled (some "app") (some "") = nsAbsent (some "app") ∧
    isNamespaceEnabled none none = nsAbsent none :=
  ⟨c5_empty_filter_passes_only_unnamespaced (some "app") (some "") (Or.inr rfl),
   c5_empty_filter_passes_only_unnamespaced none none (Or.inl rfl)⟩

/-- C10: filter tokens that are empty after trimming are ignored: `"a,,b"`
behaves exactly like `"a,b"` on every namespace, and an expression made only
of commas and whitespace behaves exactly like an absent expression. -/
theorem c10_empty_tokens_ignored (nsp : Option String) :
    isNamespaceEnabled nsp (some "a,,b") = isNamespaceEnabled nsp (some "a,b") ∧
    isNamespaceEnabled nsp (some " ,  , ") = isNamespaceEnabled nsp none := by
  refine ⟨?_, ?_⟩
  · simp only [isNamespaceEnabled]
    rw [if_neg (by decide : ¬ jsTrim "a,,b" = ""), if_neg (by decide : ¬ jsTrim "a,b" = "")]
    rw [show parsePatterns "a,,b" = ["a", "b"] from by decide]
    rw [show parsePatterns "a,b" = ["a", "b"] from by decide]
  · simp only [isNamespaceEnabled]
    rw [if_neg (by decide : ¬ jsTrim " ,  , " = "")]
    rw [show parsePatterns " ,  , " = [] from by decide]
    simp [evalPatterns]

/-- If the filter expression trims to the empty string it parses to no
tokens. -/
theorem parsePatterns_of_trim_empty {d : String} (h : jsTrim d = "") :
    parsePatterns d = [] := by
  unfold parsePatterns
  rw [h]
  rfl

/-- C3 counterexample: in the expression `-app,app` the specific negative
pattern is evaluated before the later specific positive pattern, so the
namespace `app` is disabled — the claimed "textual order, last match wins"
rule would enable it. -/
theorem c3_counterexample :
    isNamespaceEnabled (some "app") (some "-app,app") = false := by
  decide

/-- C3 (amended): negative patterns always win over positive ones regardless
of textual order — whenever some specific (non-`*`) negative token of the
filter expression matches a non-empty namespace, that namespace is disabled,
whatever positive tokens appear before or after it. -/
theorem c3_negative_beats_any_positive (ns d p : String) (hns : ns ≠ "")
    (hp : p ∈ skipsOf (parsePatterns d)) (hstar : p ≠ "*")
    (hm : patternMatches p ns = true) :
    isNamespaceEnabled (some ns) (some d) = false := by
  have hpat : parsePatterns d ≠ [] := by
    intro h0
    rw [h0] at hp
    simp [skipsOf] at hp
  have htrim : ¬ jsTrim d = "" := fun h => hpat (parsePatterns_of_trim_empty h)
  have hany : ((skipsOf (parsePatterns d)).filter (fun q => q ≠ "*")).any
      (fun q => patternMatches q ns) = true :=
    List.any_eq_true.mpr ⟨p, List.mem_filter.mpr ⟨hp, by simp [hstar]⟩, hm⟩
  simp only [isNamespaceEnabled]
  rw [if_neg htrim]
  simp only [evalPatterns]
  rw [if_neg (by simpa [List.isEmpty_iff] using hpat)]
  rw [if_neg hns]
  unfold enabledForNamespace
  rw [if_pos hany]

/-- Witness for the amended C3 at the concrete expression `-app,app`. -/
theorem c3_negative_beats_any_positive_witness :
    isNamespaceEnabled (some "app") (some "-app,app") = false :=
  c3_negative_beats_any_positive "app" "-app,app" "app" (by decide) (by decide)
    (by decide) (by decide)

end FilterTheorems

section SanitizerTheorems

open SysLogger

/-- C6: with a positive `maxStringLength` bound `L`, sanitizing a string of
exactly `L` characters returns it unchanged, and sanitizing a string of
`L + 1` characters returns exactly its first `L` characters followed by the
truncation marker. -/
theorem c6_truncation_boundary (L : Nat) (mk : String) (s t : String) (d : Int)
    (hL : 0 < L) (hs : jsLength s = L) (ht : jsLength t = L + 1) :
    prepareValueForLogging (.str s) d L mk = .str s ∧
    prepareValueForLogging (.str t) d L mk =
      .str (jsConcat (jsSubstringTo t L) mk) ∧
    jsLength (jsSubstringTo t L) = L := by
  refine ⟨?_, ?_, ?_⟩
  · simp only [prepareValueForLogging]
    rw [if_neg]
    rintro ⟨_, hgt⟩
    omega
  · simp only [prepareValueForLogging]
    rw [if_pos ⟨hL, by omega⟩]
  · show (t.data.take L).length = L
    have ht2 : t.data.length = L + 1 := ht
    rw [List.length_take]
    omega

/-- Witness for C6 at `L = 3`, marker `...`, strings `abc` and `abcd`. -/
theorem c6_truncation_boundary_witness :
    prepareValueForLogging (.str "abc") 8 3 "..." = .str "abc" ∧
    prepareValueForLogging (.str "abcd") 8 3 "..." =
      .str (jsConcat (jsSubstringTo "abcd" 3) "...") ∧
    jsLength (jsSubstringTo "abcd" 3) = 3 :=
  c6_truncation_boundary 3 "..." "abc" "abcd" 8 (by decide) (by decide) (by decide)

/-- A truncated string is a fixed point of the string-truncation rule: the
sanitizer is stable on its own string output. -/
theorem truncate_fixed_point (s mk : String) (L : Nat) (hL : 0 < L)
    (hs : jsLength s > L) (d : Int) :
    prepareValueForLogging (.str (jsConcat (jsSubstringTo s L) mk)) d L mk =
      .str (jsConcat (jsSubstringTo s L) mk) := by
  have hs2 : s.data.length > L := hs
  have htake : (s.data.take L).length = L := by
    rw [List.length_take]
    omega
  have hlen : jsLength (jsConcat (jsSubstringTo s L) mk) = L + mk.data.length := by
    show (s.data.take L ++ mk.data).length = L + mk.data.length
    rw [List.length_append, htake]
  rcases Nat.eq_zero_or_pos mk.data.length with hmk | hmk
  · simp only [prepareValueForLogging]
    rw [if_neg]
    rintro ⟨_, hgt⟩
    rw [hlen, hmk] at hgt
    omega
  · simp only [prepareValueForLogging]
    rw [if_pos ⟨hL, by rw [hlen]; omega⟩]
    have heq : jsSubstringTo (jsConcat (jsSubstringTo s L) mk) L = jsSubstringTo s L := by
      have h1 := List.take_left (s.data.take L) mk.data
      rw [htake] at h1
      exact congrArg String.mk h1
    rw [heq]

/-- Auxiliary for C7, element lists: idempotence lifts through `prepareElems`
once it holds for every value of size at most `n`. -/
theorem prepare_idem_elems (n : Nat)
    (ih : ∀ (v : JsValue) (d : Int) (L : Nat) (mk : String),
      sizeOf v ≤ n → mapFree v = true →
      prepareValueForLogging (prepareValueForLogging v d L mk) d L mk =
        prepareValueForLogging v d L mk) :
    ∀ (l : List JsValue) (d : Int) (L : Nat) (mk : String),
      sizeOf l ≤ n → mapFreeElems l = true →
      prepareElems (prepareElems l d L mk) d L mk = prepareElems l d L mk := by
  intro l
  induction l with
  | nil => intro d L mk _ _; rfl
  | cons e rest ihl =>
    intro d L mk hsz hmf
    simp only [mapFreeElems, Bool.and_eq_true] at hmf
    have hcons : sizeOf (e :: rest) = 1 + sizeOf e + sizeOf rest := by simp
    simp only [prepareElems]
    rw [ih e d L mk (by omega) hmf.1, ihl d L mk (by omega) hmf.2]

/-- Auxiliary for C7, entry lists: idempotence lifts through
`prepareEntries` once it holds for every value of size at most `n`. -/
theorem prepare_idem_entries (n : Nat)
    (ih : ∀ (v : JsValue) (d : Int) (L : Nat) (mk : String),
      sizeOf v ≤ n → mapFree v = true →
      prepareValueForLogging (prepareValueForLogging v d L mk) d L mk =
        prepareValueForLogging v d L mk) :
    ∀ (l : List (String × JsValue)) (d : Int) (L : Nat) (mk : String),
      sizeOf l ≤ n → mapFreeEntries l = true →
      prepareEntries (prepareEntries l d L mk) d L mk = prepareEntries l d L mk := by
  intro l
  induction l with
  | nil => intro d L mk _ _; rfl
  | cons kv rest ihl =>
    intro d L mk hsz hmf
    obtain ⟨k, v⟩ := kv
    simp only [mapFreeEntries, Bool.and_eq_true] at hmf
    have hcons : sizeOf ((k, v) :: rest) = 1 + (1 + sizeOf k + sizeOf v) + sizeOf rest := by
      simp
    simp only [prepareEntries]
    rw [ih v d L mk (by omega) hmf.1, ihl d L mk (by omega) hmf.2]

/-- Auxiliary for C7: idempotence of the sanitizer on map-free values, by
strong induction on the size of the value. -/
theorem prepare_idem_aux (n : Nat) :
    ∀ (v : JsValue) (d : Int) (L : Nat) (mk : String),
      sizeOf v ≤ n → mapFree v = true →
      prepareValueForLogging (prepareValueForLogging v d L mk) d L mk =
        prepareValueForLogging v d L mk := by
  induction n with
  | zero =>
    intro v d L mk hv _
    exact absurd hv (by cases v <;> simp)
  | succ n ih =>
    intro v d L mk hv hmf
    cases v with
    | undef => rfl
    | null => rfl
    | bool b => rfl
    | num m => rfl
    | jsError e => rfl
    | exotic t => rfl
    | str s =>
      by_cases hg : L > 0 ∧ jsLength s > L
      · simp only [prepareValueForLogging, if_pos hg]
        exact truncate_fixed_point s mk L hg.1 hg.2 d
      · simp only [prepareValueForLogging, if_neg hg]
    | map entries => simp [mapFree] at hmf
    | arr elems =>
      have hsza : sizeOf (JsValue.arr elems) = 1 + sizeOf elems := by simp
      have hml : mapFreeElems elems = true := by simpa [mapFree] using hmf
      simp only [prepareValueForLogging]
      rw [prepare_idem_elems n ih elems d L mk (by omega) hml]
    | obj fields =>
      have hszo : sizeOf (JsValue.obj fields) = 1 + sizeOf fields := by simp
      have hml : mapFreeEntries fields = true := by simpa [mapFree] using hmf
      simp only [prepareValueForLogging]
      rw [prepare_idem_entries n ih fields d L mk (by omega) hml]

/-- C7: sanitization is idempotent on map-free values — for fixed
depth/length/marker parameters, sanitizing an already-sanitized plain
(non-map) structure returns a structurally equal result. -/
theorem c7_sanitize_idempotent (v : JsValue) (d : Int) (L : Nat) (mk : String)
    (h : mapFree v = true) :
    prepareValueForLogging (prepareValueForLogging v d L mk) d L mk =
      prepareValueForLogging v d L mk :=
  prepare_idem_aux (sizeOf v) v d L mk (le_refl _) h

/-- Witness for C7 at a concrete map-free structure with truncation active. -/
theorem c7_sanitize_idempotent_witness :
    prepareValueForLogging
      (prepareValueForLogging
        (.obj [("a", .str "hello"), ("b", .arr [.num 1, .bool true])]) 8 3 "..")
      8 3 ".." =
    prepareValueForLogging
      (.obj [("a", .str "hello"), ("b", .arr [.num 1, .bool true])]) 8 3 ".." :=
  c7_sanitize_idempotent
    (.obj [("a", .str "hello"), ("b", .arr [.num 1, .bool true])]) 8 3 ".." (by rfl)

/-- Auxiliary for C8: a chain of more than `d` nested maps sanitized at
depth `d` becomes `d` nested plain objects with the sentinel string exactly
at level `d + 1`. -/
theorem mapChain_sentinel (d : Nat) :
    ∀ (k : Nat), d < k → ∀ (b : JsValue) (L : Nat) (mk : String),
      prepareValueForLogging (mapChain k b) (d : Int) L mk =
        objChain d (.str maxMapDepthSentinel) := by
  induction d with
  | zero =>
    intro k hk b L mk
    cases k with
    | zero => omega
    | succ k =>
      simp only [mapChain, prepareValueForLogging]
      rw [if_pos (by norm_num)]
      rfl
  | succ d ihd =>
    intro k hk b L mk
    cases k with
    | zero => omega
    | succ k =>
      simp only [mapChain, prepareValueForLogging]
      rw [if_neg (by omega)]
      simp only [prepareEntries]
      have hcast : ((d + 1 : Nat) : Int) - 1 = (d : Int) := by push_cast; ring
      rw [hcast, ihd k (by omega) b L mk]
      rfl

/-- Auxiliary for C8: array nesting passes the depth budget through
untouched. -/
theorem arrChain_transparent (j : Nat) (b : JsValue) (d : Int) (L : Nat) (mk : String) :
    prepareValueForLogging (arrChain j b) d L mk =
      arrChain j (prepareValueForLogging b d L mk) := by
  induction j with
  | zero => rfl
  | succ j ihj =>
    simp only [arrChain, prepareValueForLogging, prepareElems]
    rw [ihj]

/-- Auxiliary for C8: plain-object nesting passes the depth budget through
untouched. -/
theorem objChain_transparent (j : Nat) (b : JsValue) (d : Int) (L : Nat) (mk : String) :
    prepareValueForLogging (objChain j b) d L mk =
      objChain j (prepareValueForLogging b d L mk) := by
  induction j with
  | zero => rfl
  | succ j ihj =>
    simp only [objChain, prepareValueForLogging, prepareEntries]
    rw [ihj]

/-- C8: only maps consume the depth budget.  At depth 0 a (non-empty) map is
replaced wholesale by the sentinel; a chain of more than `d` maps sanitized
at depth `d` carries the sentinel exactly at map-nesting level `d + 1` with
the outer `d` levels converted to plain objects (in particular `maxDepth = 2`
on a three-level map puts the sentinel exactly at the third level); nesting
through arrays or plain objects of any depth `j` never decrements the depth
budget — the base value is sanitized at the original depth — and never
introduces the sentinel. -/
theorem c8_only_maps_consume_depth (L : Nat) (mk : String) (b : JsValue)
    (entries : List (String × JsValue)) (_hne : entries ≠ [])
    (d k j : Nat) (hk : d < k) :
    prepareValueForLogging (.map entries) 0 L mk = .str maxMapDepthSentinel ∧
    prepareValueForLogging (mapChain k b) (d : Int) L mk =
      objChain d (.str maxMapDepthSentinel) ∧
    prepareValueForLogging (.map [("a", .map [("b", .map [("c", b)])])]) 2 L mk =
      .obj [("a", .obj [("b", .str maxMapDepthSentinel)])] ∧
    prepareValueForLogging (arrChain j b) (d : Int) L mk =
      arrChain j (prepareValueForLogging b (d : Int) L mk) ∧
    prepareValueForLogging (objChain j b) (d : Int) L mk =
      objChain j (prepareValueForLogging b (d : Int) L mk) := by
  refine ⟨?_, mapChain_sentinel d k hk b L mk, ?_,
    arrChain_transparent j b (d : Int) L mk, objChain_transparent j b (d : Int) L mk⟩
  · simp only [prepareValueForLogging]
    rw [if_pos (by norm_num)]
  · simp only [prepareValueForLogging, prepareEntries]
    norm_num

/-- Witness for C8 at a three-level map, depth 2, with array/object chains
of length 3. -/
theorem c8_only_maps_consume_depth_witness :
    prepareValueForLogging (.map [("x", .num 1)]) 0 0 "..." = .str maxMapDepthSentinel ∧
    prepareValueForLogging (mapChain 3 (.num 1)) (2 : Int) 0 "..." =
      objChain 2 (.str maxMapDepthSentinel) ∧
    prepareValueForLogging (.map [("a", .map [("b", .map [("c", .num 1)])])]) 2 0 "..." =
      .obj [("a", .obj [("b", .str maxMapDepthSentinel)])] ∧
    prepareValueForLogging (arrChain 3 (.num 1)) (2 : Int) 0 "..." =
      arrChain 3 (prepareValueForLogging (.num 1) (2 : Int) 0 "...") ∧
    prepareValueForLogging (objChain 3 (.num 1)) (2 : Int) 0 "..." =
      objChain 3 (prepareValueForLogging (.num 1) (2 : Int) 0 "...") :=
  c8_only_maps_consume_depth 0 "..." (.num 1) [("x", .num 1)] (by simp) 2 3 3
    (by norm_num)

end SanitizerTheorems

section DispatcherTheorems

open SysLogger

/-- C2 counterexample: a severity method called with an `Error` as its sole
argument hands pino `{ err: e }` with the raw error value — which is not a
normalized `{ message, stack, type }` record — so the wrapper does not emit
a normalized error record for this call shape (it only does so for the
`{ err }` field of a context object). -/
theorem c2_counterexample :
    wrapLogMethod 8 0 "..."
      [.jsError { name := "TypeError", message := "boom",
                  stack := "TypeError: boom at f", code := none }] =
      some [.obj [("err",
        .jsError { name := "TypeError", message := "boom",
                   stack := "TypeError: boom at f", code := none })]] ∧
    JsValue.jsError { name := "TypeError", message := "boom",
                      stack := "TypeError: boom at f", code := none } ≠
      normalizedErrorRecord { name := "TypeError", message := "boom",
                              stack := "TypeError: boom at f", code := none } :=
  ⟨rfl, fun h => JsValue.noConfusion h⟩

/-- C2 (amended): an `Error` as the sole argument is emitted as
`{ err: e }` with the raw error and no message argument, the in-dispatcher
normalization to `{ message, stack, type, code }` being applied only when
the error sits in the `err` field of a context object (the final record for
the raw case is left to the sink library's own error serializer). -/
theorem c2_sole_error_raw_passthrough (d : Int) (L : Nat) (mk : String) (e : JsError) :
    wrapLogMethod d L mk [.jsError e] = some [.obj [("err", .jsError e)]] ∧
    wrapLogMethod d L mk [.obj [("err", .jsError e)]] =
      some [.obj [("err", normalizedErrorRecord e)]] :=
  ⟨rfl, rfl⟩

end DispatcherTheorems

section ConfigTheorems

open SysLogger

/-- C1: with a console transport co-configured next to a file transport
whose folder fails directory validation, `createTransport` drops only the
file descriptor, emits the directory diagnostic, keeps the console target
active, and returns successfully (no throw). -/
theorem c1_dir_failure_partial_degradation (fs : FsOracle) (ctx : AppContext)
    (hfail : (fs.creatable "/readonly/logs" && fs.writable "/readonly/logs") = false) :
    createTransport fs ctx
      [("TRANSPORT1", "console"), ("TRANSPORT2", "file"),
       ("TRANSPORT2_FOLDER", "/readonly/logs")] =
      .ok ({ level := 30,
             transport := .multiTargets
               { targets := [defaultConsoleTarget "info"], dedupe := some false } },
           [Diag.dirAccessFailed "/readonly/logs"]) := by
  have hparse : parseTransportConfigs
      [("TRANSPORT1", "console"), ("TRANSPORT2", "file"),
       ("TRANSPORT2_FOLDER", "/readonly/logs")] =
      [consoleCfgAtLevel "info", fileCfgAtLevelFolder "info" "/readonly/logs"] := by
    decide
  have hv : verifyLogDirectory fs "/readonly/logs" =
      (false, [Diag.dirAccessFailed "/readonly/logs"]) := by
    simp [verifyLogDirectory, hfail]
  have h30 : getLevelValue "info" = 30 := by decide
  simp [createTransport, loadConfig, hparse, createPinoTransports, targetForConfig, hv,
        consoleCfgAtLevel, fileCfgAtLevelFolder, defaultConsoleTarget, minTargetLevel, h30]

/-- Witness for C1: a concrete all-failing filesystem oracle. -/
theorem c1_dir_failure_partial_degradation_witness :
    createTransport
      { creatable := fun _ => false, writable := fun _ => false }
      { dateStr := "2024-01-01", timeStr := "12-00-00", appName := "app",
        appVersion := "1.0.0", pid := "1", hostname := "host" }
      [("TRANSPORT1", "console"), ("TRANSPORT2", "file"),
       ("TRANSPORT2_FOLDER", "/readonly/logs")] =
      .ok ({ level := 30,
             transport := .multiTargets
               { targets := [defaultConsoleTarget "info"], dedupe := some false } },
           [Diag.dirAccessFailed "/readonly/logs"]) :=
  c1_dir_failure_partial_degradation
    { creatable := fun _ => false, writable := fun _ => false }
    { dateStr := "2024-01-01", timeStr := "12-00-00", appName := "app",
      appVersion := "1.0.0", pid := "1", hostname := "host" }
    rfl

/-- C9: `TRANSPORT1=console` at level `debug` plus `TRANSPORT2=file` at
level `error` resolve (over a writable log folder) to two target
descriptors whose overall level is `debug` (numeric 20), the minimum of the
two configured severities. -/
theorem c9_two_transports_min_level (fs : FsOracle) (ctx : AppContext)
    (hok : (fs.creatable "logs" && fs.writable "logs") = true) :
    createTransport fs ctx
      [("TRANSPORT1", "console"), ("TRANSPORT1_LEVEL", "debug"),
       ("TRANSPORT2", "file"), ("TRANSPORT2_LEVEL", "error")] =
      .ok ({ level := 20,
             transport := .multiTargets
               { targets := [defaultConsoleTarget "debug",
                             defaultFileTarget "error"
                               (pathJoin "logs" (processFilenameTemplate ctx "{app_name}.log"))],
                 dedupe := some false } },
           []) := by
  have hparse : parseTransportConfigs
      [("TRANSPORT1", "console"), ("TRANSPORT1_LEVEL", "debug"),
       ("TRANSPORT2", "file"), ("TRANSPORT2_LEVEL", "error")] =
      [consoleCfgAtLevel "debug", fileCfgAtLevelFolder "error" "logs"] := by
    decide
  have hv : verifyLogDirectory fs "logs" = (true, []) := by
    simp [verifyLogDirectory, hok]
  have h20 : getLevelValue "debug" = 20 := by decide
  have h50 : getLevelValue "error" = 50 := by decide
  simp [createTransport, loadConfig, hparse, createPinoTransports, targetForConfig, hv,
        consoleCfgAtLevel, fileCfgAtLevelFolder, defaultConsoleTarget, defaultFileTarget,
        fileTargetFor, minTargetLevel, h20, h50]

/-- Witness for C9: a concrete all-granting filesystem oracle. -/
theorem c9_two_transports_min_level_witness :
    createTransport
      { creatable := fun _ => true, writable := fun _ => true }
      { dateStr := "2024-01-01", timeStr := "12-00-00", appName := "app",
        appVersion := "1.0.0", pid := "1", hostname := "host" }
      [("TRANSPORT1", "console"), ("TRANSPORT1_LEVEL", "debug"),
       ("TRANSPORT2", "file"), ("TRANSPORT2_LEVEL", "error")] =
      .ok ({ level := 20,
             transport := .multiTargets
               { targets := [defaultConsoleTarget "debug",
                             defaultFileTarget "error"
                               (pathJoin "logs" (processFilenameTemplate
                                 { dateStr := "2024-01-01", timeStr := "12-00-00",
                                   appName := "app", appVersion := "1.0.0", pid := "1",
                                   hostname := "host" } "{app_name}.log"))],
                 dedupe := some false } },
           []) :=
  c9_two_transports_min_level
    { creatable := fun _ => true, writable := fun _ => true }
    { dateStr := "2024-01-01", timeStr := "12-00-00", appName := "app",
      appVersion := "1.0.0", pid := "1", hostname := "host" }
    rfl

end ConfigTheorems
